import Mathlib

/-!
Verification development for the Microsoft Style Guide FastMCP server
(`fastmcp_style_server.py`).  The analysis engine — statistics extraction,
regex-based issue detection, quality scoring, recommendations and rewrite
examples — is shallowly embedded below.  Conventions of the embedding:

* Text is a `List Char` (`Str`).  The Python `re` module is modelled by
  specialised scanners for the fixed patterns of the source: the patterns
  are word-bounded case-insensitive alternations, the passive-voice
  pattern, and the long-sentence pattern.  The scanners reproduce the Python
  left-to-right, first-alternative, non-overlapping `finditer` semantics,
  with `\b` boundaries computed from `\w = [A-Za-z0-9_]` (ASCII, which
  covers every string the analysed claims touch).
* Python floats are modelled as exact rationals; `round(x, 1)` is modelled
  by round-half-to-even on rationals (the CPython rounding rule).  Binary
  floating-point representation error is not modelled.
* Scanners take a fuel argument; `s.length + 1` fuel is always sufficient
  because every step consumes at least one character.
* The change log (`track_change`) is modelled with an explicit state list
  and an explicit clock argument in place of `datetime.now()`.
-/

abbrev Str := List Char

def apos : Char := Char.ofNat 39

def lbrace : Char := Char.ofNat 123

def rbrace : Char := Char.ofNat 125

/-- Python `\w` (ASCII range, sufficient for the analysed inputs). -/
def isWordChar (c : Char) : Bool :=
  c.isAlphanum || c = '_'

/-- Python `\s`. -/
def isWs (c : Char) : Bool :=
  c = ' ' || c = '\t' || c = '\n' || c = '\r' || c = '\x0b' || c = '\x0c'

/-- Characters `.`, `!`, `?` used by the sentence splitter and the
long-sentence pattern. -/
def isPunct (c : Char) : Bool :=
  c = '.' || c = '!' || c = '?'

/-- ASCII `[A-Z]`. -/
def isUpperAZ (c : Char) : Bool :=
  65 ≤ c.toNat && c.toNat ≤ 90

def lowerStr (s : Str) : Str := s.map Char.toLower

/-- `pat` (already lowercase) is a case-insensitive prefix of `s`. -/
def ciPre : Str → Str → Bool
  | [], _ => true
  | _ :: _, [] => false
  | p :: ps, c :: cs => p = c.toLower && ciPre ps cs

/-- `pat` is an exact prefix of `s`. -/
def exPre : Str → Str → Bool
  | [], _ => true
  | _ :: _, [] => false
  | p :: ps, c :: cs => p = c && exPre ps cs

/-- Exact substring containment, any position. -/
def containsSub (pat : Str) : Str → Bool
  | [] => pat.isEmpty
  | c :: cs => exPre pat (c :: cs) || containsSub pat cs

/-- Python `avoid.lower() in text.lower()`. -/
def ciContains (pat text : Str) : Bool :=
  containsSub (lowerStr pat) (lowerStr text)

/-- `\b` holds right after a match that ends in a word character: the next
character must not be a word character (or the string ends). -/
def boundaryAfter : Str → Bool
  | [] => true
  | c :: _ => !(isWordChar c)

/-- Try the alternatives of a `\b(a1|a2|...)\b` pattern, in pattern order, at
the current position; returns the length of the first alternative that
matches case-insensitively and is followed by a word boundary.  All
alternatives of the source patterns start and end with word characters. -/
def tryAlts (alts : List Str) (s : Str) : Option Nat :=
  match alts with
  | [] => none
  | a :: rest =>
    if ciPre a s && boundaryAfter (s.drop a.length) then some a.length
    else tryAlts rest s

/-- Generic non-overlapping scanner in the style of `re.finditer`: `probe`
decides whether a match of some length starts at the current position; a
position qualifies only when the previous character was not a word
character (the leading `\b`; every pattern alternative starts with a word
character).  Returns `(start index, matched text)` pairs. -/
def scanB (probe : Str → Option Nat) : Nat → Nat → Bool → Str → List (Nat × Str)
  | 0, _, _, _ => []
  | _ + 1, _, _, [] => []
  | fuel + 1, i, prevW, c :: cs =>
    if prevW then scanB probe fuel (i + 1) (isWordChar c) cs
    else
      match probe (c :: cs) with
      | some n => (i, (c :: cs).take n) :: scanB probe fuel (i + n) true ((c :: cs).drop n)
      | none => scanB probe fuel (i + 1) (isWordChar c) cs

/-- Scanner without the leading word-boundary requirement (used by the
long-sentence pattern, which starts with a punctuation class). -/
def scanNoB (probe : Str → Option Nat) : Nat → Nat → Str → List (Nat × Str)
  | 0, _, _ => []
  | _ + 1, _, [] => []
  | fuel + 1, i, c :: cs =>
    match probe (c :: cs) with
    | some n => (i, (c :: cs).take n) :: scanNoB probe fuel (i + n) ((c :: cs).drop n)
    | none => scanNoB probe fuel (i + 1) cs

/-- All matches of a word-bounded case-insensitive alternation. -/
def findWordAlt (alts : List Str) (s : Str) : List (Nat × Str) :=
  scanB (tryAlts alts) (s.length + 1) 0 false s

/-- Last two characters are `ed` case-insensitively (the effective meaning of
greedy `\w*ed\b` on the maximal word run that follows the whitespace). -/
def endsEd (w : Str) : Bool :=
  match w.reverse with
  | d :: e :: _ => d.toLower = 'd' && e.toLower = 'e'
  | _ => false

/-- Probe for `\b(is|are|was|were|been|be)\s+\w*ed\b` (case-insensitive): try
each auxiliary in pattern order; after it, a nonempty whitespace run, then
the maximal word run must end in `ed`. -/
def tryPassive (auxAlts : List Str) (s : Str) : Option Nat :=
  match auxAlts with
  | [] => none
  | a :: rest =>
    if ciPre a s then
      let t := s.drop a.length
      let wsp := t.takeWhile isWs
      let w := (t.drop wsp.length).takeWhile isWordChar
      if wsp.length ≠ 0 && endsEd w then some (a.length + wsp.length + w.length)
      else tryPassive rest s
    else tryPassive rest s

/-- Probe for `[.!?]+\s*[A-Z][^.!?]{100,}[.!?]`: a maximal punctuation run, a
maximal whitespace run, an ASCII capital, then at least 100 non-punctuation
characters followed by one punctuation character. -/
def tryLong (s : Str) : Option Nat :=
  match s with
  | [] => none
  | c :: _ =>
    if isPunct c then
      let p := s.takeWhile isPunct
      let t := s.drop p.length
      let wsp := t.takeWhile isWs
      let u := t.drop wsp.length
      match u with
      | [] => none
      | d :: u2 =>
        if isUpperAZ d then
          let body := u2.takeWhile (fun x => !(isPunct x))
          if 100 ≤ body.length && body.length < u2.length then
            some (p.length + wsp.length + 1 + body.length + 1)
          else none
        else none
    else none

/-- `self.patterns["contractions"]` alternatives, in source order. -/
def contraction_alts : List Str :=
  [ "it".data ++ apos :: "s".data
  , "you".data ++ apos :: "re".data
  , "we".data ++ apos :: "re".data
  , "don".data ++ apos :: "t".data
  , "can".data ++ apos :: "t".data
  , "won".data ++ apos :: "t".data
  , "let".data ++ apos :: "s".data
  , "you".data ++ apos :: "ll".data
  , "we".data ++ apos :: "ll".data ]

/-- The shorter contraction alternation used at line 435 of the source
(`_generate_recommendations`): it lacks the last three contractions of the
full list. -/
def reduced_contraction_alts : List Str :=
  [ "it".data ++ apos :: "s".data
  , "you".data ++ apos :: "re".data
  , "we".data ++ apos :: "re".data
  , "don".data ++ apos :: "t".data
  , "can".data ++ apos :: "t".data
  , "won".data ++ apos :: "t".data ]

def you_alts : List Str := ["you".data]

def non_inclusive_alts : List Str :=
  [ "guys".data, "mankind".data, "blacklist".data, "whitelist".data
  , "master".data, "slave".data, "crazy".data, "insane".data, "lame".data ]

def gendered_alts : List Str :=
  [ "he".data, "him".data, "his".data, "she".data, "her".data, "hers".data ]

def aux_alts : List Str :=
  [ "is".data, "are".data, "was".data, "were".data, "been".data, "be".data ]

def contraction_find (s : Str) : List (Nat × Str) := findWordAlt contraction_alts s

def you_find (s : Str) : List (Nat × Str) := findWordAlt you_alts s

def ni_find (s : Str) : List (Nat × Str) := findWordAlt non_inclusive_alts s

def gp_find (s : Str) : List (Nat × Str) := findWordAlt gendered_alts s

def passive_find (s : Str) : List (Nat × Str) :=
  scanB (tryPassive aux_alts) (s.length + 1) 0 false s

def long_find (s : Str) : List (Nat × Str) :=
  scanNoB tryLong (s.length + 1) 0 s

/-- Python `str.split()` with no argument: split on whitespace runs,
dropping empty fragments. -/
def splitWs : Str → List Str
  | [] => []
  | c :: cs =>
    let r := splitWs cs
    if isWs c then r
    else
      match cs with
      | c2 :: _ =>
        if isWs c2 then [c] :: r
        else
          match r with
          | f :: rest => (c :: f) :: rest
          | [] => [[c]]
      | [] => [[c]]

/-- Python re.split on the pattern `[.!?]+`: cut at every maximal run of the
punctuation characters, keeping empty fragments. -/
def splitPunct : Str → List Str
  | [] => [[]]
  | c :: cs =>
    let r := splitPunct cs
    if isPunct c then
      match cs with
      | c2 :: _ => if isPunct c2 then r else [] :: r
      | [] => [] :: r
    else
      match r with
      | f :: rest => (c :: f) :: rest
      | [] => [[c]]

/-- Python `not s.strip()`: the string is empty or all whitespace. -/
def isBlank (s : Str) : Bool := s.all isWs

/-- Python `s.strip()`. -/
def stripStr (s : Str) : Str :=
  ((s.dropWhile isWs).reverse.dropWhile isWs).reverse

/-- CPython `round` tie-breaking: round half to even. -/
def roundHalfEven (q : ℚ) : ℤ :=
  let f := ⌊q⌋
  let r := q - (f : ℚ)
  if r < 1 / 2 then f
  else if 1 / 2 < r then f + 1
  else if f % 2 = 0 then f else f + 1

/-- Python `round(x, 1)` on the rational model of floats. -/
def round1 (q : ℚ) : ℚ := (roundHalfEven (q * 10) : ℚ) / 10

/-! ## Data model (section 3 of the spec; dict shapes of the source) -/

structure Statistics where
  word_count : Nat
  sentence_count : Nat
  avg_words_per_sentence : ℚ
deriving DecidableEq

/-- One issue dict.  The optional fields reflect which keys the individual
detectors put into the dict (see `pyStrIssue` for the exact key orders). -/
structure Issue where
  type : Str
  severity : Str
  message : Str
  position : Option Nat
  text : Option Str
  principle : Option Str
  note : Option Str
deriving DecidableEq

structure Suggestion where
  type : Str
  message : Str
  principle : Str
deriving DecidableEq

structure AnalysisResult where
  status : Str
  assessment : Str
  statistics : Statistics
  issues : List Issue
  suggestions : List Suggestion
  total_issues : Nat
  analysis_type : Str
  style_guide_url : Str
deriving DecidableEq

structure QualityScores where
  voice_tone : ℚ
  clarity : ℚ
  accessibility : ℚ
  compliance : ℚ
deriving DecidableEq

structure RewriteExample where
  category : Str
  before : Str
  after : Str
  explanation : Str
deriving DecidableEq

structure Recommendations where
  high_priority : List Str
  medium_priority : List Str
  low_priority : List Str
deriving DecidableEq

/-! ## String constants of the source -/

def comprehensive_S : Str := "comprehensive".data

def voice_tone_S : Str := "voice_tone".data

def grammar_S : Str := "grammar".data

def terminology_S : Str := "terminology".data

def accessibility_S : Str := "accessibility".data

def info_S : Str := "info".data

def warning_S : Str := "warning".data

def error_S : Str := "error".data

def positive_S : Str := "positive".data

def warm_and_relaxed_S : Str := "warm_and_relaxed".data

def ready_to_help_S : Str := "ready_to_help".data

def crisp_and_clear_S : Str := "crisp_and_clear".data

def bias_free_S : Str := "bias_free_communication".data

def style_guide_url_S : Str := "https://learn.microsoft.com/en-us/style-guide".data

/-- Message of the missing-contractions issue; note it itself contains the
contraction tokens of its parenthesised example list. -/
def contraction_issue_message : Str :=
  "Consider using contractions (".data ++ ("it".data ++ apos :: "s".data)
    ++ ", ".data ++ ("you".data ++ apos :: "re".data)
    ++ ", ".data ++ ("we".data ++ apos :: "ll".data)
    ++ ") for a more natural tone".data

def contraction_issue : Issue :=
  { type := voice_tone_S, severity := info_S
  , message := contraction_issue_message
  , position := none, text := none, principle := some warm_and_relaxed_S, note := none }

def warm_suggestion (n : Nat) : Suggestion :=
  { type := positive_S
  , message := "Good use of contractions (".data ++ (toString n).data
      ++ " found) - supports warm, natural tone".data
  , principle := warm_and_relaxed_S }

def ready_suggestion (n : Nat) : Suggestion :=
  { type := positive_S
  , message := "Good use of ".data ++ apos :: "you".data ++ apos :: " (".data
      ++ (toString n).data ++ " instances) - directly engages readers".data
  , principle := ready_to_help_S }

def passive_issue (m : Nat × Str) : Issue :=
  { type := grammar_S, severity := warning_S
  , message := "Consider using active voice for clarity".data
  , position := some m.1, text := some m.2
  , principle := some crisp_and_clear_S, note := none }

def long_issue (m : Nat × Str) : Issue :=
  { type := grammar_S, severity := info_S
  , message := "Long sentence detected - consider breaking into shorter sentences".data
  , position := some m.1, text := none
  , principle := some crisp_and_clear_S, note := none }

def ni_issue (m : Nat × Str) : Issue :=
  { type := accessibility_S, severity := error_S
  , message := apos :: m.2 ++ apos :: " may not be inclusive - consider alternatives".data
  , position := some m.1, text := some m.2
  , principle := some bias_free_S, note := none }

def gp_issue (m : Nat × Str) : Issue :=
  { type := accessibility_S, severity := warning_S
  , message := "Consider gender-neutral alternatives".data
  , position := some m.1, text := some m.2
  , principle := some bias_free_S, note := none }

/-! ## Terminology table (`self.terminology_standards`, in dict insertion
order; the dict keys are only iteration handles and are dropped). -/

structure TermStandard where
  correct : Str
  avoid : List Str
  note : Str

def terminology_standards : List TermStandard :=
  [ { correct := "AI".data, avoid := ["A.I.".data], note := "No periods".data }
  , { correct := "email".data, avoid := ["e-mail".data], note := "One word".data }
  , { correct := "website".data, avoid := ["web site".data], note := "One word".data }
  , { correct := "sign in (verb), sign-in (noun)".data
    , avoid := ["login".data, "log in".data], note := "Microsoft standard".data }
  , { correct := "set up (verb), setup (noun)".data
    , avoid := ["setup (verb)".data], note := "Context dependent".data }
  , { correct := "Wi-Fi".data, avoid := ["WiFi".data, "wifi".data]
    , note := "Hyphenated, both caps".data } ]

def term_issue (std : TermStandard) (avoidTerm : Str) : Issue :=
  { type := terminology_S, severity := warning_S
  , message := "Use ".data ++ apos :: std.correct ++ apos :: " instead of ".data
      ++ apos :: avoidTerm ++ [apos]
  , position := none, text := some avoidTerm
  , principle := none, note := some std.note }

def avoid_issues (std : TermStandard) (text : Str) : List Issue :=
  (std.avoid.filter (fun a => ciContains a text)).map (term_issue std)

def terminology_issues_go : List TermStandard → Str → List Issue
  | [], _ => []
  | std :: rest, text => avoid_issues std text ++ terminology_issues_go rest text

/-! ## `analyze_content` (lines 77-204 of the source) -/

def voice_issues (text : Str) : List Issue :=
  if 0 < (contraction_find text).length then [] else [contraction_issue]

def voice_suggestions (text : Str) : List Suggestion :=
  (if 0 < (contraction_find text).length
   then [warm_suggestion (contraction_find text).length] else [])
  ++ (if 0 < (you_find text).length
      then [ready_suggestion (you_find text).length] else [])

def grammar_issues (text : Str) : List Issue :=
  (passive_find text).map passive_issue ++ (long_find text).map long_issue

def terminology_issues (text : Str) : List Issue :=
  terminology_issues_go terminology_standards text

def accessibility_issues (text : Str) : List Issue :=
  (ni_find text).map ni_issue ++ (gp_find text).map gp_issue

def sentence_fragments (text : Str) : List Str :=
  (splitPunct text).filter (fun f => !(isBlank f))

def excellent_S : Str := "✅ Excellent".data

def good_S : Str := "⚠️ Good".data

def needs_work_S : Str := "❌ Needs Work".data

def excellent_assessment_S : Str :=
  "Content follows Microsoft Style Guide principles well".data

def good_assessment_S : Str := "Minor style improvements suggested".data

def needs_work_assessment_S : Str := "Multiple style issues detected".data

def analyze_content (text : Str) (analysis_type : Str) : AnalysisResult :=
  let word_count := (splitWs text).length
  let sentence_count := (sentence_fragments text).length
  let avg := round1 ((word_count : ℚ) / ((max 1 sentence_count : ℕ) : ℚ))
  let issues :=
    (if analysis_type = comprehensive_S ∨ analysis_type = voice_tone_S
     then voice_issues text else [])
    ++ (if analysis_type = comprehensive_S ∨ analysis_type = grammar_S
        then grammar_issues text else [])
    ++ (if analysis_type = comprehensive_S ∨ analysis_type = terminology_S
        then terminology_issues text else [])
    ++ (if analysis_type = comprehensive_S ∨ analysis_type = accessibility_S
        then accessibility_issues text else [])
  let suggestions :=
    if analysis_type = comprehensive_S ∨ analysis_type = voice_tone_S
    then voice_suggestions text else []
  let total := issues.length
  { status := if total = 0 then excellent_S else if total ≤ 2 then good_S else needs_work_S
  , assessment :=
      if total = 0 then excellent_assessment_S
      else if total ≤ 2 then good_assessment_S else needs_work_assessment_S
  , statistics := ⟨word_count, sentence_count, avg⟩
  , issues := issues
  , suggestions := suggestions
  , total_issues := total
  , analysis_type := analysis_type
  , style_guide_url := style_guide_url_S }

/-! ## `_calculate_quality_scores` (lines 260-303) -/

/-- Python `max(0, min(10, score))`. -/
def pyClamp (x : ℚ) : ℚ := max 0 (min 10 x)

def issue_type_count (analysis : AnalysisResult) (t : Str) : Nat :=
  (analysis.issues.filter (fun i => i.type == t)).length

def calculate_quality_scores (analysis : AnalysisResult) (document_text : Str) :
    QualityScores :=
  let contractions : ℚ := ((contraction_find document_text).length : ℚ)
  let you_usage : ℚ := ((you_find document_text).length : ℚ)
  let voice_issues_n : ℚ := (issue_type_count analysis voice_tone_S : ℚ)
  let voice_score :=
    pyClamp (10 - voice_issues_n * 2 + min (contractions * (1 / 2)) 2
      + min (you_usage * (1 / 5)) 1)
  let avg := analysis.statistics.avg_words_per_sentence
  let clarity_issues_n : ℚ := (issue_type_count analysis grammar_S : ℚ)
  let clarity_score :=
    pyClamp (10 - clarity_issues_n * (3 / 2)
      - (if 25 < avg then (avg - 25) * (1 / 10) else 0))
  let accessibility_issues_n : ℚ := (issue_type_count analysis accessibility_S : ℚ)
  let accessibility_score := pyClamp (10 - accessibility_issues_n * 3)
  let terminology_issues_n : ℚ := (issue_type_count analysis terminology_S : ℚ)
  let compliance_score := pyClamp (10 - terminology_issues_n * 2)
  { voice_tone := voice_score
  , clarity := clarity_score
  , accessibility := accessibility_score
  , compliance := compliance_score }

/-! ## Python `str()` of the analysis dict (needed by the line-435
recommendation trigger).  `pyReprStr` follows CPython string repr: single
quotes by default, double quotes when the string contains a single quote
but no double quote. -/

def pyReprStr (s : Str) : Str :=
  if s.any (fun c => c == apos) && !(s.any (fun c => c == '"')) then
    '"' :: s ++ ['"']
  else
    apos :: (s.flatMap (fun c => if c = apos then ['\\', apos] else [c])) ++ [apos]

def natStr (n : Nat) : Str := (toString n).data

/-- Repr of the one-decimal nonnegative rationals produced by `round1`,
matching CPython float repr on such values (e.g. `2.0`, `2.5`). -/
def pyReprQ1 (q : ℚ) : Str :=
  let k := (⌊q * 10⌋).toNat
  natStr (k / 10) ++ '.' :: natStr (k % 10)

def pyKey (k : String) : Str :=
  apos :: k.data ++ apos :: ':' :: [' ']

def pyList (f : α → Str) (l : List α) : Str :=
  '[' :: List.intercalate ", ".data (l.map f) ++ [']']

/-- Python `str()` of one issue dict.  The key order is the insertion order
of the detector that built the dict; the four present/absent shapes of the
optional fields identify the detector. -/
def pyStrIssue (i : Issue) : Str :=
  match i.position, i.text, i.principle, i.note with
  | some p, some t, some pr, none =>
    lbrace :: pyKey "type" ++ pyReprStr i.type ++ ", ".data
      ++ pyKey "severity" ++ pyReprStr i.severity ++ ", ".data
      ++ pyKey "position" ++ natStr p ++ ", ".data
      ++ pyKey "text" ++ pyReprStr t ++ ", ".data
      ++ pyKey "message" ++ pyReprStr i.message ++ ", ".data
      ++ pyKey "principle" ++ pyReprStr pr ++ [rbrace]
  | some p, none, some pr, none =>
    lbrace :: pyKey "type" ++ pyReprStr i.type ++ ", ".data
      ++ pyKey "severity" ++ pyReprStr i.severity ++ ", ".data
      ++ pyKey "position" ++ natStr p ++ ", ".data
      ++ pyKey "message" ++ pyReprStr i.message ++ ", ".data
      ++ pyKey "principle" ++ pyReprStr pr ++ [rbrace]
  | none, some t, none, some nt =>
    lbrace :: pyKey "type" ++ pyReprStr i.type ++ ", ".data
      ++ pyKey "severity" ++ pyReprStr i.severity ++ ", ".data
      ++ pyKey "text" ++ pyReprStr t ++ ", ".data
      ++ pyKey "message" ++ pyReprStr i.message ++ ", ".data
      ++ pyKey "note" ++ pyReprStr nt ++ [rbrace]
  | none, none, some pr, none =>
    lbrace :: pyKey "type" ++ pyReprStr i.type ++ ", ".data
      ++ pyKey "severity" ++ pyReprStr i.severity ++ ", ".data
      ++ pyKey "message" ++ pyReprStr i.message ++ ", ".data
      ++ pyKey "principle" ++ pyReprStr pr ++ [rbrace]
  | _, _, _, _ =>
    lbrace :: pyKey "type" ++ pyReprStr i.type ++ ", ".data
      ++ pyKey "severity" ++ pyReprStr i.severity ++ ", ".data
      ++ pyKey "message" ++ pyReprStr i.message ++ [rbrace]

def pyStrSuggestion (s : Suggestion) : Str :=
  lbrace :: pyKey "type" ++ pyReprStr s.type ++ ", ".data
    ++ pyKey "message" ++ pyReprStr s.message ++ ", ".data
    ++ pyKey "principle" ++ pyReprStr s.principle ++ [rbrace]

def pyStrAnalysis (a : AnalysisResult) : Str :=
  lbrace :: pyKey "status" ++ pyReprStr a.status ++ ", ".data
    ++ pyKey "assessment" ++ pyReprStr a.assessment ++ ", ".data
    ++ pyKey "statistics"
    ++ lbrace :: pyKey "word_count" ++ natStr a.statistics.word_count ++ ", ".data
    ++ pyKey "sentence_count" ++ natStr a.statistics.sentence_count ++ ", ".data
    ++ pyKey "avg_words_per_sentence" ++ pyReprQ1 a.statistics.avg_words_per_sentence
    ++ rbrace :: ", ".data
    ++ pyKey "issues" ++ pyList pyStrIssue a.issues ++ ", ".data
    ++ pyKey "suggestions" ++ pyList pyStrSuggestion a.suggestions ++ ", ".data
    ++ pyKey "total_issues" ++ natStr a.total_issues ++ ", ".data
    ++ pyKey "analysis_type" ++ pyReprStr a.analysis_type ++ ", ".data
    ++ pyKey "style_guide_url" ++ pyReprStr a.style_guide_url ++ [rbrace]

/-! ## `_generate_recommendations` (lines 406-442) -/

def fix_inclusive_S : Str :=
  "Fix inclusive language violations - these are critical for Microsoft standards".data

def address_accessibility_S : Str := "Address accessibility concerns immediately".data

def improve_voice_S : Str :=
  "Improve voice and tone to match Microsoft".data ++ apos
    :: "s warm, conversational style".data

def simplify_S : Str :=
  "Simplify complex sentences and reduce passive voice usage".data

def break_down_S : Str := "Break down long sentences for better readability".data

def update_terminology_S : Str := "Update terminology to match Microsoft standards".data

def add_contractions_S : Str :=
  "Add contractions to make tone more natural and conversational".data

def no_critical_S : Str := "No critical issues found".data

def minor_improvements_S : Str := "Minor style improvements available".data

def meets_standards_S : Str := "Content meets Microsoft standards well".data

def generate_recommendations (analysis : AnalysisResult) (quality_scores : QualityScores) :
    Recommendations :=
  let accessibility_errors := analysis.issues.filter
    (fun i => i.type == accessibility_S && i.severity == error_S)
  let high :=
    (if accessibility_errors.isEmpty then [] else [fix_inclusive_S])
    ++ (if quality_scores.accessibility < 7 then [address_accessibility_S] else [])
  let medium :=
    (if quality_scores.voice_tone < 7 then [improve_voice_S] else [])
    ++ (if quality_scores.clarity < 7 then [simplify_S] else [])
    ++ (if 25 < analysis.statistics.avg_words_per_sentence then [break_down_S] else [])
  let low :=
    (if quality_scores.compliance < 9 then [update_terminology_S] else [])
    ++ (if (findWordAlt reduced_contraction_alts (pyStrAnalysis analysis)).length = 0
        then [add_contractions_S] else [])
  { high_priority := if high.isEmpty then [no_critical_S] else high
  , medium_priority := if medium.isEmpty then [minor_improvements_S] else medium
  , low_priority := if low.isEmpty then [meets_standards_S] else low }

/-- The recommendations produced during `review_document` (line 224):
the analysis is always comprehensive and the scores come from
`_calculate_quality_scores` on that analysis and the same text. -/
def review_recommendations (document_text : Str) : Recommendations :=
  let analysis := analyze_content document_text comprehensive_S
  generate_recommendations analysis (calculate_quality_scores analysis document_text)

/-! ## `_generate_rewrite_examples` (lines 444-499) -/

/-- Python `str.replace(old, new)`: exact, left-to-right, non-overlapping. -/
def strReplace (old new : Str) : Nat → Str → Str
  | 0, _ => []
  | _ + 1, [] => []
  | fuel + 1, c :: cs =>
    if exPre old (c :: cs) then new ++ strReplace old new fuel ((c :: cs).drop old.length)
    else c :: strReplace old new fuel cs

def pyReplace (s old new : Str) : Str := strReplace old new (s.length + 1) s

/-- Last two characters `ed` and at least one word character before them
(the effective meaning of greedy `\w+ed\b` on a maximal word run). -/
def endsEdPlus (w : Str) : Bool :=
  match w.reverse with
  | d :: e :: _ :: _ => d.toLower = 'd' && e.toLower = 'e'
  | _ => false

/-- Probe for the substitution pattern `\b(is|are|was|were|been|be)\s+(\w+ed)\b`
(case-insensitive), returning the match length and the two groups (with the
original casing, as `re` groups do). -/
def trySubPassive (auxAlts : List Str) (s : Str) : Option (Nat × Str × Str) :=
  match auxAlts with
  | [] => none
  | a :: rest =>
    if ciPre a s then
      let g1 := s.take a.length
      let t := s.drop a.length
      let wsp := t.takeWhile isWs
      let w := (t.drop wsp.length).takeWhile isWordChar
      if wsp.length ≠ 0 && endsEdPlus w then
        some (a.length + wsp.length + w.length, g1, w)
      else trySubPassive rest s
    else trySubPassive rest s

/-- The replacement lambda of `_generate_rewrite_examples`: note the exact
(case-sensitive) comparison of group 1 against the lowercase `is`/`are`. -/
def passiveReplacement (g1 g2 : Str) : Str :=
  if g1 = "is".data ∨ g1 = "are".data then
    "the system ".data ++ pyReplace g2 "ed".data "s".data
  else
    "we ".data ++ pyReplace g2 "ed".data [] 

/-- `re.sub` with the passive pattern and the replacement lambda. -/
def passiveSub : Nat → Bool → Str → Str
  | 0, _, _ => []
  | _ + 1, _, [] => []
  | fuel + 1, prevW, c :: cs =>
    if prevW then c :: passiveSub fuel (isWordChar c) cs
    else
      match trySubPassive aux_alts (c :: cs) with
      | some (n, g1, g2) =>
        passiveReplacement g1 g2 ++ passiveSub fuel true ((c :: cs).drop n)
      | none => c :: passiveSub fuel (isWordChar c) cs

/-- Python `text.rfind('.', 0, stop)` followed by `max(0, _ + 1)`.  -/
def sentenceStartAt (text : Str) (stop : Nat) : Nat :=
  match (((text.take stop).enum.filter (fun p => p.2 == '.')).map (fun p => p.1)).getLast? with
  | some i => i + 1
  | none => 0

/-- Python `text.find('.', from)`, with the `-1 → len(text)` fallback of the
source. -/
def sentenceEndAt (text : Str) (start : Nat) : Nat :=
  match (text.drop start).findIdx? (fun c => c == '.') with
  | some j => start + j
  | none => text.length

def active_voice_example (document_text : Str) (m : Nat × Str) : RewriteExample :=
  let sStart := sentenceStartAt document_text m.1
  let sEnd := sentenceEndAt document_text (m.1 + m.2.length)
  let original := stripStr ((document_text.drop sStart).take (sEnd - sStart))
  { category := "Active Voice".data
  , before := original
  , after := passiveSub (original.length + 1) false original
  , explanation :=
      "Changed from passive to active voice for clarity and directness".data }

def inclusive_replacements : List (Str × Str) :=
  [ ("guys".data, "everyone".data)
  , ("mankind".data, "humanity".data)
  , ("blacklist".data, "block list".data)
  , ("whitelist".data, "allow list".data)
  , ("master".data, "primary".data)
  , ("slave".data, "secondary".data) ]

def inclusive_example (m : Nat × Str) : RewriteExample :=
  let w := m.2
  let repl :=
    match inclusive_replacements.lookup (lowerStr w) with
    | some r => r
    | none => "inclusive alternative".data
  { category := "Inclusive Language".data
  , before := "...".data ++ w ++ "...".data
  , after := "...".data ++ repl ++ "...".data
  , explanation := "Replaced ".data ++ apos :: w ++ apos
      :: " with more inclusive language".data }

def natural_tone_example : RewriteExample :=
  { category := "Natural Tone".data
  , before := "You cannot access this feature.".data
  , after := "You can".data ++ apos :: "t access this feature.".data
  , explanation :=
      "Added contractions for a more natural, conversational tone".data }

def generate_rewrite_examples (document_text : Str) : List RewriteExample :=
  (((passive_find document_text).head?.map (active_voice_example document_text)).toList
    ++ ((ni_find document_text).head?.map inclusive_example).toList
    ++ (if (contraction_find document_text).isEmpty then [natural_tone_example] else [])
  ).take 3

/-! ## Tool wrapper and change log (lines 653-663 and 712-725).  The chat
display string assembled by the FastMCP wrapper is presentation glue (out
of scope per the spec); the wrapper input guard, analysis result and
change-log appends are modelled.  `datetime.now()` is an explicit `now`
argument. -/

structure ChangeEntry where
  timestamp : Nat
  file_path : Str
  line_number : Nat
  description : Str
deriving DecidableEq

def no_text_error_S : Str := "No text provided for analysis".data

def issue_change_entry (now : Nat) (i : Issue) : ChangeEntry :=
  { timestamp := now
  , file_path := "content_analysis".data
  , line_number := (i.position.getD 0) / 50 + 1
  , description := "Style issue identified: ".data ++ i.message }

def analyze_content_tool (st : List ChangeEntry) (now : Nat) (text analysis_type : Str) :
    Except Str AnalysisResult × List ChangeEntry :=
  if isBlank text then (Except.error no_text_error_S, st)
  else
    let result := analyze_content text analysis_type
    let st2 :=
      if result.issues.isEmpty then st
      else st ++ result.issues.map (issue_change_entry now)
    (Except.ok result, st2)

/-! ## Concrete inputs used by witnesses and counterexamples -/

def hi_S : Str := "Hi".data

def blank_S : Str := "   ".data

def hello_S : Str := "Hello".data

def hello_world_S : Str := "Hello world.".data

def hello_test_S : Str := "Hello world. This is a test.".data

def dont_S : Str := "don".data ++ apos :: "t".data

def dont_you_S : Str := "don".data ++ apos :: "t you".data

def dont_stop_S : Str := "don".data ++ apos :: "t stop.".data

def whitelist_S : Str := "whitelist".data

def four_terms_S : Str := "guys mankind blacklist crazy".data

/-! ## Helper lemmas -/

theorem pyClamp_nonneg (x : ℚ) : 0 ≤ pyClamp x := le_max_left 0 _

theorem pyClamp_le_ten (x : ℚ) : pyClamp x ≤ 10 :=
  max_le (by norm_num) (min_le_left 10 x)

theorem filter_map_all_false {α β : Type} (p : β → Bool) (f : α → β) (l : List α)
    (h : ∀ a, p (f a) = false) : (l.map f).filter p = [] := by
  induction l with
  | nil => rfl
  | cons a t ih => simp [h, ih]

theorem filter_map_all_true {α β : Type} (p : β → Bool) (f : α → β) (l : List α)
    (h : ∀ a, p (f a) = true) : (l.map f).filter p = l.map f := by
  induction l with
  | nil => rfl
  | cons a t ih => simp [h, ih]

theorem terminology_go_filter_nil (stds : List TermStandard) (text : Str)
    (p : Issue → Bool) (hp : ∀ std a, p (term_issue std a) = false) :
    (terminology_issues_go stds text).filter p = [] := by
  induction stds with
  | nil => rfl
  | cons std rest ih =>
    simp only [terminology_issues_go, List.filter_append, ih, List.append_nil,
      avoid_issues, filter_map_all_false p (term_issue std) _ (hp std)]

theorem issues_comprehensive (text : Str) :
    (analyze_content text comprehensive_S).issues
      = voice_issues text ++ grammar_issues text ++ terminology_issues text
        ++ accessibility_issues text := by
  simp [analyze_content]

theorem issues_accessibility_only (text : Str) :
    (analyze_content text accessibility_S).issues = accessibility_issues text := by
  have h1 : ¬(accessibility_S = comprehensive_S ∨ accessibility_S = voice_tone_S) := by decide
  have h2 : ¬(accessibility_S = comprehensive_S ∨ accessibility_S = grammar_S) := by decide
  have h3 : ¬(accessibility_S = comprehensive_S ∨ accessibility_S = terminology_S) := by decide
  have h4 : accessibility_S = comprehensive_S ∨ accessibility_S = accessibility_S := by decide
  simp [analyze_content, h1, h2, h3, h4]

theorem voice_issues_filter_not (text : Str) (p : Issue → Bool)
    (hp : p contraction_issue = false) : (voice_issues text).filter p = [] := by
  unfold voice_issues
  split
  · rfl
  · simp [hp]

theorem grammar_issues_filter_not (text : Str) (p : Issue → Bool)
    (hp : ∀ m, p (passive_issue m) = false) (hl : ∀ m, p (long_issue m) = false) :
    (grammar_issues text).filter p = [] := by
  simp only [grammar_issues, List.filter_append,
    filter_map_all_false p passive_issue _ hp,
    filter_map_all_false p long_issue _ hl, List.append_nil]

theorem error_filter_analyze (text ty : Str)
    (h : ty = comprehensive_S ∨ ty = accessibility_S) :
    (analyze_content text ty).issues.filter (fun i => i.severity == error_S)
      = (ni_find text).map ni_issue := by
  have hni : ((ni_find text).map ni_issue).filter (fun i => i.severity == error_S)
      = (ni_find text).map ni_issue :=
    filter_map_all_true (fun i => i.severity == error_S) ni_issue (ni_find text)
      (fun m => (by decide : (error_S == error_S) = true))
  have hgp : ((gp_find text).map gp_issue).filter (fun i => i.severity == error_S) = [] :=
    filter_map_all_false (fun i => i.severity == error_S) gp_issue (gp_find text)
      (fun m => (by decide : (warning_S == error_S) = false))
  have hacc : (accessibility_issues text).filter (fun i => i.severity == error_S)
      = (ni_find text).map ni_issue := by
    simp only [accessibility_issues, List.filter_append, hni, hgp, List.append_nil]
  have hv : (voice_issues text).filter (fun i => i.severity == error_S) = [] :=
    voice_issues_filter_not text (fun i => i.severity == error_S) (by decide)
  have hg : (grammar_issues text).filter (fun i => i.severity == error_S) = [] :=
    grammar_issues_filter_not text (fun i => i.severity == error_S)
      (fun m => (by decide : (warning_S == error_S) = false))
      (fun m => (by decide : (info_S == error_S) = false))
  have ht : (terminology_issues text).filter (fun i => i.severity == error_S) = [] :=
    terminology_go_filter_nil terminology_standards text
      (fun i => i.severity == error_S)
      (fun std a => (by decide : (warning_S == error_S) = false))
  rcases h with rfl | rfl
  · rw [issues_comprehensive]
    simp only [List.filter_append, hv, hg, ht, hacc, List.nil_append, List.append_nil]
  · rw [issues_accessibility_only, hacc]

theorem acc_type_count_comp (text : Str) :
    issue_type_count (analyze_content text comprehensive_S) accessibility_S
      = (ni_find text).length + (gp_find text).length := by
  have hni : ((ni_find text).map ni_issue).filter (fun i => i.type == accessibility_S)
      = (ni_find text).map ni_issue :=
    filter_map_all_true (fun i => i.type == accessibility_S) ni_issue (ni_find text)
      (fun m => (by decide : (accessibility_S == accessibility_S) = true))
  have hgp : ((gp_find text).map gp_issue).filter (fun i => i.type == accessibility_S)
      = (gp_find text).map gp_issue :=
    filter_map_all_true (fun i => i.type == accessibility_S) gp_issue (gp_find text)
      (fun m => (by decide : (accessibility_S == accessibility_S) = true))
  have hv : (voice_issues text).filter (fun i => i.type == accessibility_S) = [] :=
    voice_issues_filter_not text (fun i => i.type == accessibility_S) (by decide)
  have hg : (grammar_issues text).filter (fun i => i.type == accessibility_S) = [] :=
    grammar_issues_filter_not text (fun i => i.type == accessibility_S)
      (fun m => (by decide : (grammar_S == accessibility_S) = false))
      (fun m => (by decide : (grammar_S == accessibility_S) = false))
  have ht : (terminology_issues text).filter (fun i => i.type == accessibility_S) = [] :=
    terminology_go_filter_nil terminology_standards text
      (fun i => i.type == accessibility_S)
      (fun std a => (by decide : (terminology_S == accessibility_S) = false))
  unfold issue_type_count
  rw [issues_comprehensive]
  simp only [List.filter_append, hv, hg, ht, accessibility_issues, hni, hgp,
    List.nil_append, List.length_append, List.length_map, List.length_nil,
    Nat.zero_add, Nat.add_zero]

/-! ## Claim theorems -/

/-- C1: for every non-empty input text and every analysis type, the
`AnalysisResult` of `analyze_content` satisfies `total_issues = length issues`,
and all four `_calculate_quality_scores` values computed from it lie in
the closed interval `[0, 10]`. -/
theorem claim_C1 (text analysis_type : Str) (_h : text ≠ []) :
    (analyze_content text analysis_type).total_issues
      = (analyze_content text analysis_type).issues.length
  ∧ (0 ≤ (calculate_quality_scores (analyze_content text analysis_type) text).voice_tone
      ∧ (calculate_quality_scores (analyze_content text analysis_type) text).voice_tone ≤ 10)
  ∧ (0 ≤ (calculate_quality_scores (analyze_content text analysis_type) text).clarity
      ∧ (calculate_quality_scores (analyze_content text analysis_type) text).clarity ≤ 10)
  ∧ (0 ≤ (calculate_quality_scores (analyze_content text analysis_type) text).accessibility
      ∧ (calculate_quality_scores (analyze_content text analysis_type) text).accessibility ≤ 10)
  ∧ (0 ≤ (calculate_quality_scores (analyze_content text analysis_type) text).compliance
      ∧ (calculate_quality_scores (analyze_content text analysis_type) text).compliance ≤ 10) :=
  ⟨rfl,
   ⟨pyClamp_nonneg _, pyClamp_le_ten _⟩,
   ⟨pyClamp_nonneg _, pyClamp_le_ten _⟩,
   ⟨pyClamp_nonneg _, pyClamp_le_ten _⟩,
   ⟨pyClamp_nonneg _, pyClamp_le_ten _⟩⟩

/-- Witness for C1 at the non-empty text `"Hi"`. -/
theorem claim_C1_witness :
    hi_S ≠ []
  ∧ ((analyze_content hi_S comprehensive_S).total_issues
      = (analyze_content hi_S comprehensive_S).issues.length
  ∧ (0 ≤ (calculate_quality_scores (analyze_content hi_S comprehensive_S) hi_S).voice_tone
      ∧ (calculate_quality_scores (analyze_content hi_S comprehensive_S) hi_S).voice_tone ≤ 10)
  ∧ (0 ≤ (calculate_quality_scores (analyze_content hi_S comprehensive_S) hi_S).clarity
      ∧ (calculate_quality_scores (analyze_content hi_S comprehensive_S) hi_S).clarity ≤ 10)
  ∧ (0 ≤ (calculate_quality_scores (analyze_content hi_S comprehensive_S) hi_S).accessibility
      ∧ (calculate_quality_scores (analyze_content hi_S comprehensive_S) hi_S).accessibility ≤ 10)
  ∧ (0 ≤ (calculate_quality_scores (analyze_content hi_S comprehensive_S) hi_S).compliance
      ∧ (calculate_quality_scores (analyze_content hi_S comprehensive_S) hi_S).compliance ≤ 10)) :=
  ⟨by decide, claim_C1 hi_S comprehensive_S (by decide)⟩

/-- C8: the analyze tool entry point rejects empty or whitespace-only text
with the structured invalid-input error and otherwise returns the complete
`analyze_content` result; there is no other failure path. -/
theorem claim_C8 (st : List ChangeEntry) (now : Nat) (text ty : Str) :
    (isBlank text = true →
      (analyze_content_tool st now text ty).1 = Except.error no_text_error_S)
  ∧ (isBlank text = false →
      (analyze_content_tool st now text ty).1 = Except.ok (analyze_content text ty)) := by
  constructor <;> intro hb <;> simp [analyze_content_tool, hb]

/-- Witness for C8: a whitespace-only input is rejected and `"Hi"` is
analysed. -/
theorem claim_C8_witness :
    (isBlank blank_S = true
      ∧ (analyze_content_tool [] 0 blank_S comprehensive_S).1
          = Except.error no_text_error_S)
  ∧ (isBlank hi_S = false
      ∧ (analyze_content_tool [] 0 hi_S comprehensive_S).1
          = Except.ok (analyze_content hi_S comprehensive_S)) :=
  ⟨⟨by decide, (claim_C8 [] 0 blank_S comprehensive_S).1 (by decide)⟩,
   ⟨by decide, (claim_C8 [] 0 hi_S comprehensive_S).2 (by decide)⟩⟩

/-- C9: the analysis result returned by the tool entry point is a pure
function of the text and analysis type: it does not depend on the change
log state or the clock, and an immediately repeated call (through the state
produced by the first call) returns the identical result. -/
theorem claim_C9 (st st2 : List ChangeEntry) (now now2 : Nat) (text ty : Str) :
    (analyze_content_tool st now text ty).1 = (analyze_content_tool st2 now2 text ty).1
  ∧ (analyze_content_tool (analyze_content_tool st now text ty).2 now2 text ty).1
      = (analyze_content_tool st now text ty).1 := by
  by_cases hb : isBlank text = true <;>
    simp [analyze_content_tool, hb]

/-- C5 counterexample: the claim asserts 5 words and average 2.5 for
`"Hello world. This is a test."`, but `str.split()` yields 6 tokens
(`world.` and `test.` keep their periods), so the average is 3.0. -/
theorem claim_C5_counterexample :
    ¬ ((analyze_content hello_test_S comprehensive_S).statistics.word_count = 5
       ∧ (analyze_content hello_test_S comprehensive_S).statistics.sentence_count = 2
       ∧ (analyze_content hello_test_S comprehensive_S).statistics.avg_words_per_sentence
           = 5 / 2) := by decide

/-- C5 amended: the statistics are the whitespace-token count, the count of
non-blank fragments after splitting on runs of sentence punctuation, and
`round(word_count / max(1, sentence_count), 1)`; for
`"Hello world. This is a test."` this gives 6 words, 2 sentences and
average 3.0. -/
theorem claim_C5_amended :
    (∀ text ty : Str,
        (analyze_content text ty).statistics.word_count = (splitWs text).length
      ∧ (analyze_content text ty).statistics.sentence_count
          = (sentence_fragments text).length
      ∧ (analyze_content text ty).statistics.avg_words_per_sentence
          = round1 (((splitWs text).length : ℚ)
              / ((max 1 (sentence_fragments text).length : ℕ) : ℚ)))
  ∧ ((analyze_content hello_test_S comprehensive_S).statistics.word_count = 6
     ∧ (analyze_content hello_test_S comprehensive_S).statistics.sentence_count = 2
     ∧ (analyze_content hello_test_S comprehensive_S).statistics.avg_words_per_sentence
         = 3) := by
  refine ⟨fun _ _ => ⟨rfl, rfl, rfl⟩, by decide, by decide, ?_⟩
  have e : (analyze_content hello_test_S comprehensive_S).statistics.avg_words_per_sentence
      = round1 (((splitWs hello_test_S).length : ℚ)
          / ((max 1 (sentence_fragments hello_test_S).length : ℕ) : ℚ)) := rfl
  have h1 : (splitWs hello_test_S).length = 6 := by decide
  have h2 : (sentence_fragments hello_test_S).length = 2 := by decide
  rw [e, h1, h2]
  norm_num [round1, roundHalfEven]

/-- C3 counterexample: the one-word text `dont_S` contains a contraction, yet with the
`grammar` category filter `analyze_content` produces no suggestion at all —
the contraction and direct-address detectors run only under the
`comprehensive` and `voice_tone` filters (source line 90). -/
theorem claim_C3_counterexample :
    0 < (contraction_find dont_S).length
  ∧ (analyze_content dont_S grammar_S).suggestions = [] := by decide

/-- C3 amended: under the `comprehensive` or `voice_tone` filter (and only
under those), a text with at least one contraction yields the positive
`warm_and_relaxed` suggestion, a text with none yields the info-severity
`voice_tone` issue, and a text with at least one `you` yields the
`ready_to_help` suggestion; under any other filter no suggestion is
produced. -/
theorem claim_C3_amended :
    (∀ text ty : Str, ty = comprehensive_S ∨ ty = voice_tone_S →
        (0 < (contraction_find text).length →
          warm_suggestion (contraction_find text).length
            ∈ (analyze_content text ty).suggestions)
      ∧ ((contraction_find text).length = 0 →
          contraction_issue ∈ (analyze_content text ty).issues)
      ∧ (0 < (you_find text).length →
          ready_suggestion (you_find text).length
            ∈ (analyze_content text ty).suggestions))
  ∧ (∀ text ty : Str, ¬(ty = comprehensive_S ∨ ty = voice_tone_S) →
        (analyze_content text ty).suggestions = []) := by
  constructor
  · intro text ty hty
    have hsugg : (analyze_content text ty).suggestions = voice_suggestions text := by
      simp [analyze_content, hty]
    have hiss : contraction_issue ∈ voice_issues text →
        contraction_issue ∈ (analyze_content text ty).issues := by
      intro hm
      simp only [analyze_content]
      rw [if_pos hty]
      exact List.mem_append_left _ (List.mem_append_left _
        (List.mem_append_left _ hm))
    refine ⟨?_, ?_, ?_⟩
    · intro hc
      rw [hsugg]
      unfold voice_suggestions
      rw [if_pos hc]
      exact List.mem_append_left _ (List.mem_singleton_self _)
    · intro hc0
      apply hiss
      unfold voice_issues
      rw [if_neg (by omega)]
      exact List.mem_singleton_self _
    · intro hy
      rw [hsugg]
      unfold voice_suggestions
      rw [if_pos hy]
      exact List.mem_append_right _ (List.mem_singleton_self _)
  · intro text ty hty
    simp [analyze_content, hty]

/-- Witness for C3 amended at the text `dont_you_S` with the comprehensive
filter: one contraction and one `you`, so both positive suggestions
appear. -/
theorem claim_C3_amended_witness :
    (comprehensive_S = comprehensive_S ∨ comprehensive_S = voice_tone_S)
  ∧ 0 < (contraction_find dont_you_S).length
  ∧ warm_suggestion (contraction_find dont_you_S).length
      ∈ (analyze_content dont_you_S comprehensive_S).suggestions
  ∧ 0 < (you_find dont_you_S).length
  ∧ ready_suggestion (you_find dont_you_S).length
      ∈ (analyze_content dont_you_S comprehensive_S).suggestions :=
  ⟨Or.inl rfl, by decide,
   (claim_C3_amended.1 dont_you_S comprehensive_S (Or.inl rfl)).1 (by decide),
   by decide,
   (claim_C3_amended.1 dont_you_S comprehensive_S (Or.inl rfl)).2.2 (by decide)⟩

/-- C4 counterexample: `whitelist` is in the accessibility denylist, not in
the terminology table, so a text containing it yields no terminology issue
at all — under the `terminology` filter the issue list is empty, and under
`comprehensive` no issue has category `terminology`. -/
theorem claim_C4_counterexample :
    ciContains whitelist_S whitelist_S = true
  ∧ (analyze_content whitelist_S terminology_S).issues = []
  ∧ (analyze_content whitelist_S comprehensive_S).issues.filter
      (fun i => i.type == terminology_S) = [] := by decide

/-- C4 amended: for a text whose only non-inclusive-pattern match is a
`whitelist` occurrence, `analyze_content` under the `comprehensive` or
`accessibility` filter produces exactly one error-severity issue — the
accessibility issue for that occurrence, carrying the matched text; the
`allow list` wording appears only in the review rewrite table, not in any
terminology issue. -/
theorem claim_C4_amended (text ty : Str) (p : Nat) (w : Str)
    (hty : ty = comprehensive_S ∨ ty = accessibility_S)
    (hni : ni_find text = [(p, w)])
    (_hw : lowerStr w = "whitelist".data) :
    (analyze_content text ty).issues.filter (fun i => i.severity == error_S)
      = [ni_issue (p, w)]
  ∧ (ni_issue (p, w)).type = accessibility_S
  ∧ (ni_issue (p, w)).text = some w
  ∧ (inclusive_replacements.lookup (lowerStr w)) = some ("allow list".data) := by
  refine ⟨?_, rfl, rfl, ?_⟩
  · rw [error_filter_analyze text ty hty, hni]
    rfl
  · rw [_hw]
    rfl

/-- Witness for C4 amended at the text `whitelist` with the comprehensive
filter. -/
theorem claim_C4_amended_witness :
    (comprehensive_S = comprehensive_S ∨ comprehensive_S = accessibility_S)
  ∧ ni_find whitelist_S = [(0, whitelist_S)]
  ∧ lowerStr whitelist_S = "whitelist".data
  ∧ ((analyze_content whitelist_S comprehensive_S).issues.filter
        (fun i => i.severity == error_S) = [ni_issue (0, whitelist_S)]
    ∧ (ni_issue (0, whitelist_S)).type = accessibility_S
    ∧ (ni_issue (0, whitelist_S)).text = some whitelist_S
    ∧ (inclusive_replacements.lookup (lowerStr whitelist_S))
        = some ("allow list".data)) :=
  ⟨Or.inl rfl, by decide, by decide,
   claim_C4_amended whitelist_S comprehensive_S 0 whitelist_S (Or.inl rfl)
     (by decide) (by decide)⟩

/-- C2: `_calculate_quality_scores` computes the four scores by the fixed
linear formulas, each starting at 10 and clamped to `[0, 10]`; in
particular, on any text with at least 4 non-inclusive-pattern matches the
comprehensive analysis scores accessibility exactly 0. -/
theorem claim_C2 :
    (∀ (analysis : AnalysisResult) (text : Str),
      calculate_quality_scores analysis text =
        { voice_tone := pyClamp (10 - (issue_type_count analysis voice_tone_S : ℚ) * 2
            + min (((contraction_find text).length : ℚ) * (1 / 2)) 2
            + min (((you_find text).length : ℚ) * (1 / 5)) 1)
        , clarity := pyClamp (10 - (issue_type_count analysis grammar_S : ℚ) * (3 / 2)
            - (if 25 < analysis.statistics.avg_words_per_sentence
               then (analysis.statistics.avg_words_per_sentence - 25) * (1 / 10) else 0))
        , accessibility := pyClamp (10 - (issue_type_count analysis accessibility_S : ℚ) * 3)
        , compliance := pyClamp (10 - (issue_type_count analysis terminology_S : ℚ) * 2) })
  ∧ (∀ text : Str, 4 ≤ (ni_find text).length →
      (calculate_quality_scores (analyze_content text comprehensive_S) text).accessibility
        = 0) := by
  refine ⟨fun analysis text => rfl, fun text h => ?_⟩
  have e : (calculate_quality_scores (analyze_content text comprehensive_S) text).accessibility
      = pyClamp (10 - (issue_type_count (analyze_content text comprehensive_S)
          accessibility_S : ℚ) * 3) := rfl
  rw [e, acc_type_count_comp text]
  have hn : (4 : ℚ) ≤ ((ni_find text).length : ℚ) := by exact_mod_cast h
  have hg : (0 : ℚ) ≤ ((gp_find text).length : ℚ) := by positivity
  have hx : (10 : ℚ) - (((ni_find text).length + (gp_find text).length : ℕ) : ℚ) * 3 ≤ 0 := by
    push_cast
    linarith
  unfold pyClamp
  rw [min_eq_right (hx.trans (by norm_num)), max_eq_left hx]

/-- Witness for C2 at a text with exactly four non-inclusive matches. -/
theorem claim_C2_witness :
    4 ≤ (ni_find four_terms_S).length
  ∧ (calculate_quality_scores (analyze_content four_terms_S comprehensive_S)
      four_terms_S).accessibility = 0 :=
  ⟨by decide, claim_C2.2 four_terms_S (by decide)⟩

/-- C10: every analysis emits at most one issue of category `voice_tone`
(only the missing-contractions info issue), and consequently the
`voice_tone` quality score is always at least 8. -/
theorem claim_C10 (text ty : Str) :
    issue_type_count (analyze_content text ty) voice_tone_S ≤ 1
  ∧ 8 ≤ (calculate_quality_scores (analyze_content text ty) text).voice_tone := by
  have hvoice : ((voice_issues text).filter (fun i => i.type == voice_tone_S)).length ≤ 1 := by
    unfold voice_issues
    split
    · decide
    · decide
  have hg : (grammar_issues text).filter (fun i => i.type == voice_tone_S) = [] :=
    grammar_issues_filter_not text (fun i => i.type == voice_tone_S)
      (fun m => (by decide : (grammar_S == voice_tone_S) = false))
      (fun m => (by decide : (grammar_S == voice_tone_S) = false))
  have ht : (terminology_issues text).filter (fun i => i.type == voice_tone_S) = [] :=
    terminology_go_filter_nil terminology_standards text
      (fun i => i.type == voice_tone_S)
      (fun std a => (by decide : (terminology_S == voice_tone_S) = false))
  have hni : ((ni_find text).map ni_issue).filter (fun i => i.type == voice_tone_S) = [] :=
    filter_map_all_false (fun i => i.type == voice_tone_S) ni_issue (ni_find text)
      (fun m => (by decide : (accessibility_S == voice_tone_S) = false))
  have hgp : ((gp_find text).map gp_issue).filter (fun i => i.type == voice_tone_S) = [] :=
    filter_map_all_false (fun i => i.type == voice_tone_S) gp_issue (gp_find text)
      (fun m => (by decide : (accessibility_S == voice_tone_S) = false))
  have hacc : (accessibility_issues text).filter (fun i => i.type == voice_tone_S) = [] := by
    simp only [accessibility_issues, List.filter_append, hni, hgp, List.append_nil]
  have hcount : issue_type_count (analyze_content text ty) voice_tone_S ≤ 1 := by
    unfold issue_type_count
    simp only [analyze_content]
    split_ifs <;>
      simp only [List.filter_append, hg, ht, hacc, List.filter_nil, List.append_nil,
        List.nil_append, List.length_append, List.length_nil, Nat.add_zero,
        Nat.zero_add] <;>
      first
        | exact hvoice
        | exact Nat.zero_le 1
  refine ⟨hcount, ?_⟩
  have e : (calculate_quality_scores (analyze_content text ty) text).voice_tone
      = pyClamp (10 - (issue_type_count (analyze_content text ty) voice_tone_S : ℚ) * 2
          + min (((contraction_find text).length : ℚ) * (1 / 2)) 2
          + min (((you_find text).length : ℚ) * (1 / 5)) 1) := rfl
  rw [e]
  have hv : (issue_type_count (analyze_content text ty) voice_tone_S : ℚ) ≤ 1 := by
    exact_mod_cast hcount
  have hb1 : (0 : ℚ) ≤ min (((contraction_find text).length : ℚ) * (1 / 2)) 2 :=
    le_min (by positivity) (by norm_num)
  have hb2 : (0 : ℚ) ≤ min (((you_find text).length : ℚ) * (1 / 5)) 1 :=
    le_min (by positivity) (by norm_num)
  have hx : (8 : ℚ) ≤ 10 - (issue_type_count (analyze_content text ty) voice_tone_S : ℚ) * 2
      + min (((contraction_find text).length : ℚ) * (1 / 2)) 2
      + min (((you_find text).length : ℚ) * (1 / 5)) 1 := by linarith
  exact le_trans (le_min (by norm_num) hx) (le_max_right 0 _)

/-- C6: the rewrite-example list has length at most 3 and fixed order —
the passive-voice example exactly when the passive pattern matches, then
the inclusive-language example exactly when the non-inclusive pattern
matches, then the canned contractions example exactly when the text has no
contraction — and with zero contractions the canned Natural Tone example
is present with the exact before/after sentences. -/
theorem claim_C6 (text : Str) :
    (generate_rewrite_examples text).length ≤ 3
  ∧ generate_rewrite_examples text
      = ((passive_find text).head?.map (active_voice_example text)).toList
        ++ ((ni_find text).head?.map inclusive_example).toList
        ++ (if (contraction_find text).isEmpty then [natural_tone_example] else [])
  ∧ ((contraction_find text).isEmpty = true →
        natural_tone_example ∈ generate_rewrite_examples text
      ∧ natural_tone_example.before = "You cannot access this feature.".data
      ∧ natural_tone_example.after
          = "You can".data ++ apos :: "t access this feature.".data) := by
  have hA : (((passive_find text).head?.map (active_voice_example text)).toList).length ≤ 1 := by
    cases (passive_find text).head? <;> simp
  have hB : (((ni_find text).head?.map inclusive_example).toList).length ≤ 1 := by
    cases (ni_find text).head? <;> simp
  have hC : ((if (contraction_find text).isEmpty then [natural_tone_example] else [])
      : List RewriteExample).length ≤ 1 := by
    split <;> simp
  have hlen : (((passive_find text).head?.map (active_voice_example text)).toList
      ++ ((ni_find text).head?.map inclusive_example).toList
      ++ (if (contraction_find text).isEmpty then [natural_tone_example] else [])).length
        ≤ 3 := by
    simp only [List.length_append]
    omega
  have heq : generate_rewrite_examples text
      = ((passive_find text).head?.map (active_voice_example text)).toList
        ++ ((ni_find text).head?.map inclusive_example).toList
        ++ (if (contraction_find text).isEmpty then [natural_tone_example] else []) := by
    unfold generate_rewrite_examples
    exact List.take_of_length_le hlen
  refine ⟨?_, heq, ?_⟩
  · rw [heq]
    exact hlen
  · intro hc
    refine ⟨?_, rfl, rfl⟩
    rw [heq, hc]
    simp

/-- Witness for C6 at the contraction-free text `Hello`. -/
theorem claim_C6_witness :
    (contraction_find hello_S).isEmpty = true
  ∧ (natural_tone_example ∈ generate_rewrite_examples hello_S
    ∧ natural_tone_example.before = "You cannot access this feature.".data
    ∧ natural_tone_example.after
        = "You can".data ++ apos :: "t access this feature.".data) :=
  ⟨by decide, (claim_C6 hello_S).2.2 (by decide)⟩

set_option maxRecDepth 100000 in
/-- C7: the code inverts the claimed behaviour.  Line 435 scans
`str(analysis)` — not the document — for contraction tokens; when the text
has no contractions the analysis contains the missing-contractions issue
whose own message contains two of the scanned tokens, so the scan finds 2
and the `Add contractions` recommendation is omitted; when the text does
contain a contraction no token occurs in the stringified analysis and the
recommendation is emitted.  Evaluated here at the contraction-free
`hello_world_S` and at `dont_stop_S`. -/
theorem claim_C7 :
    (review_recommendations hello_world_S).low_priority = [meets_standards_S]
  ∧ add_contractions_S ∉ (review_recommendations hello_world_S).low_priority
  ∧ (review_recommendations dont_stop_S).low_priority = [add_contractions_S]
  ∧ contraction_find hello_world_S = []
  ∧ contraction_find dont_stop_S ≠ [] := by
  have hq : pyReprQ1 (2 : ℚ) = "2.0".data := by
    show natStr ((⌊(2 : ℚ) * 10⌋).toNat / 10) ++ '.'
        :: natStr ((⌊(2 : ℚ) * 10⌋).toNat % 10) = "2.0".data
    rw [(by norm_num : ⌊(2 : ℚ) * 10⌋ = 20)]
    decide
  have havg1 : (analyze_content hello_world_S comprehensive_S).statistics.avg_words_per_sentence
      = 2 := by
    have e : (analyze_content hello_world_S comprehensive_S).statistics.avg_words_per_sentence
        = round1 (((splitWs hello_world_S).length : ℚ)
            / ((max 1 (sentence_fragments hello_world_S).length : ℕ) : ℚ)) := rfl
    rw [e, (by decide : (splitWs hello_world_S).length = 2),
      (by decide : (sentence_fragments hello_world_S).length = 1)]
    norm_num [round1, roundHalfEven]
  have havg2 : (analyze_content dont_stop_S comprehensive_S).statistics.avg_words_per_sentence
      = 2 := by
    have e : (analyze_content dont_stop_S comprehensive_S).statistics.avg_words_per_sentence
        = round1 (((splitWs dont_stop_S).length : ℚ)
            / ((max 1 (sentence_fragments dont_stop_S).length : ℕ) : ℚ)) := rfl
    rw [e, (by decide : (splitWs dont_stop_S).length = 2),
      (by decide : (sentence_fragments dont_stop_S).length = 1)]
    norm_num [round1, roundHalfEven]
  have hcnt1 : (findWordAlt reduced_contraction_alts
      (pyStrAnalysis (analyze_content hello_world_S comprehensive_S))).length = 2 := by
    simp only [pyStrAnalysis]
    rw [havg1, hq]
    decide
  have hcnt2 : (findWordAlt reduced_contraction_alts
      (pyStrAnalysis (analyze_content dont_stop_S comprehensive_S))).length = 0 := by
    simp only [pyStrAnalysis]
    rw [havg2, hq]
    decide
  have hcomp1 : ¬((calculate_quality_scores (analyze_content hello_world_S comprehensive_S)
      hello_world_S).compliance < 9) := by
    have e : (calculate_quality_scores (analyze_content hello_world_S comprehensive_S)
        hello_world_S).compliance
        = pyClamp (10 - (issue_type_count (analyze_content hello_world_S comprehensive_S)
            terminology_S : ℚ) * 2) := rfl
    rw [e, (by decide : issue_type_count (analyze_content hello_world_S comprehensive_S)
      terminology_S = 0)]
    norm_num [pyClamp]
  have hcomp2 : ¬((calculate_quality_scores (analyze_content dont_stop_S comprehensive_S)
      dont_stop_S).compliance < 9) := by
    have e : (calculate_quality_scores (analyze_content dont_stop_S comprehensive_S)
        dont_stop_S).compliance
        = pyClamp (10 - (issue_type_count (analyze_content dont_stop_S comprehensive_S)
            terminology_S : ℚ) * 2) := rfl
    rw [e, (by decide : issue_type_count (analyze_content dont_stop_S comprehensive_S)
      terminology_S = 0)]
    norm_num [pyClamp]
  have hlow1 : (review_recommendations hello_world_S).low_priority = [meets_standards_S] := by
    show (generate_recommendations (analyze_content hello_world_S comprehensive_S)
      (calculate_quality_scores (analyze_content hello_world_S comprehensive_S)
        hello_world_S)).low_priority = [meets_standards_S]
    simp only [generate_recommendations]
    rw [if_neg hcomp1, if_neg (by rw [hcnt1]; decide :
      ¬((findWordAlt reduced_contraction_alts
        (pyStrAnalysis (analyze_content hello_world_S comprehensive_S))).length = 0))]
    rfl
  have hlow2 : (review_recommendations dont_stop_S).low_priority = [add_contractions_S] := by
    show (generate_recommendations (analyze_content dont_stop_S comprehensive_S)
      (calculate_quality_scores (analyze_content dont_stop_S comprehensive_S)
        dont_stop_S)).low_priority = [add_contractions_S]
    simp only [generate_recommendations]
    rw [if_neg hcomp2, if_pos hcnt2]
    rfl
  refine ⟨hlow1, ?_, hlow2, by decide, by decide⟩
  rw [hlow1]
  decide
